import Mathlib

/-!
Shallow embedding of `src/pirc522/rfid.py` (class `RFID`), the RC522 reader
driver, together with proofs about the specification's claims.

The chip is reached only through `spi_transfer`, which the source implements
as a full-duplex `xfer2` exchange.  We model the device side as an oracle:
a queue of response bytes, one per SPI transaction (the byte that
`dev_read` extracts from the reply; register writes ignore the reply).
Every transaction is also logged (most recent frame first), so that claims
about "what was transmitted" are statable.  All functions are explicit
state-passing translations of the Python methods; Python's unbounded ints
are `Nat` where the source value is provably non-negative and `Int` where
it can go negative (the computed response bit length).
-/

namespace Pirc522

set_option maxRecDepth 1000000

/-- Reader-session state: the device oracle (pending SPI read-back bytes),
the log of transmitted frames (most recent first), and the two pieces of
mutable session configuration the claims mention (`authed`,
`antenna_gain`, source lines 85 and 99). -/
structure RState where
  oracle : List Nat
  log : List (List Nat)
  authed : Bool
  antenna_gain : Int
  deriving Repr, DecidableEq

/-- Fresh session state with a given oracle; `antenna_gain` defaults to
0x04 as in the source (line 85), `authed` to `False` (line 99). -/
def mkState (oracle : List Nat) : RState :=
  { oracle := oracle, log := [], authed := false, antenna_gain := 4 }

-- Register addresses (source lines 32-52).
def addr_CommandReg : Nat := 0x01
def addr_ComIEnReg : Nat := 0x02
def addr_DivIEnReg : Nat := 0x03
def addr_ComIrqReq : Nat := 0x04
def addr_DivIrqReg : Nat := 0x05
def addr_ErrorReg : Nat := 0x06
def addr_Status2Reg : Nat := 0x08
def addr_FIFODataReg : Nat := 0x09
def addr_FIFOLevelReg : Nat := 0x0A
def addr_ControlReg : Nat := 0x0C
def addr_BitFramingReg : Nat := 0x0D
def addr_RFCfgReg : Nat := 0x26
def addr_CRCResultReg21 : Nat := 0x21
def addr_CRCResultReg22 : Nat := 0x22

-- Command codes and card actions (source lines 57-81).
def mode_idle : Nat := 0x00
def mode_auth : Nat := 0x0E
def mode_transrec : Nat := 0x0C
def mode_crc : Nat := 0x03
def act_read : Nat := 0x30
def act_write : Nat := 0xA0
def act_anticl : Nat := 0x93
def act_anticl2 : Nat := 0x95
def act_select : Nat := 0x93
def act_end : Nat := 0x50

/-- FIFO drain clamp, class attribute `length = 16` (source line 83). -/
def fifo_length : Nat := 16

/-- `spi_transfer` (source lines 169-175): one full-duplex exchange.
The sent frame is logged; the oracle yields the byte a subsequent
`dev_read` would extract from the reply (writes discard it).  An
exhausted oracle answers 0. -/
def spi_transfer (data : List Nat) (s : RState) : Nat × RState :=
  (s.oracle.headD 0,
   { s with oracle := s.oracle.tail, log := data :: s.log })

/-- `dev_write` (source lines 177-178). -/
def dev_write (address value : Nat) (s : RState) : RState :=
  (spi_transfer [(address <<< 1) &&& 0x7E, value] s).2

/-- `dev_read` (source lines 180-181): returns the reply byte. -/
def dev_read (address : Nat) (s : RState) : Nat × RState :=
  spi_transfer [((address <<< 1) &&& 0x7E) ||| 0x80, 0] s

/-- `set_bitmask` (source lines 183-185). -/
def set_bitmask (address mask : Nat) (s : RState) : RState :=
  let r := dev_read address s
  dev_write address (r.1 ||| mask) r.2

/-- `clear_bitmask` (source lines 187-189): Python computes
`current & (~mask)` — clear the `mask` bits of the non-negative
`current`, i.e. the bitwise set difference `Nat.ldiff current mask`.  We
write it as `current ^^^ (current &&& mask)` (strip the common bits),
which `xor_land_eq_ldiff` below proves equal to `Nat.ldiff`. -/
def clear_bitmask (address mask : Nat) (s : RState) : RState :=
  let r := dev_read address s
  dev_write address (r.1 ^^^ (r.1 &&& mask)) r.2

/-- `disable_interrupts` (source lines 151-155). -/
def disable_interrupts (s : RState) : RState :=
  let s := dev_write addr_ComIrqReq 0x14 s
  let s := dev_write addr_ComIEnReg 0x80 s
  let s := dev_write addr_DivIEnReg 0x00 s
  dev_write addr_DivIrqReg 0x00 s

/-- `set_antenna_gain` (source lines 200-208): range-check 0..7, store the
gain, write `antenna_gain << 4` to the RF configuration register; out of
range raises `ValueError` before any mutation or transfer, modelled as
`Except.error`.  Inside the valid branch the stored gain is non-negative,
so the Python shift is `toNat`-safe. -/
def set_antenna_gain (gain : Int) (s : RState) : Except String (RState) :=
  if 0 ≤ gain ∧ gain ≤ 7 then
    let s := { s with antenna_gain := gain }
    .ok (dev_write addr_RFCfgReg (s.antenna_gain.toNat <<< 4) s)
  else
    .error "Antenna gain has to be in the range 0...7"

/-! ### Command executor `card_write` (source lines 210-276)

The polling condition (line 243) is
`if ~((i != 0) and ~(n & 0x01) and ~(n & irq_wait)): break` where `~` is
Python's *bitwise* complement on unbounded ints and `and` returns one of
its operands.  We transcribe those semantics exactly: truthiness of an int
is "nonzero", `x and y` is `if x == 0 then x else y`, `~x` is `-x - 1`,
and `True` converts to 1. -/

/-- Python truthiness of an int. -/
def pyTruthy (x : Int) : Bool := x ≠ 0

/-- Python bitwise complement `~x = -x - 1` on ints. -/
def pyInv (x : Int) : Int := -x - 1

/-- Python `x and y` on ints: the first falsy operand, else the last. -/
def pyAnd (x y : Int) : Int := if x = 0 then x else y

/-- Python bool-to-int conversion (`True` is 1, `False` is 0). -/
def pyBool (b : Bool) : Int := if b then 1 else 0

/-- The break condition of `card_write`'s polling loop (source line 243),
evaluated after `i -= 1`: truthiness of
`~((i != 0) and ~(n & 0x01) and ~(n & irq_wait))`.  The inner `n & mask`
values are non-negative, so Nat bitwise-and casts faithfully. -/
def cardWriteBreak (i n irq_wait : Nat) : Bool :=
  pyTruthy (pyInv (pyAnd (pyAnd (pyBool (decide (i ≠ 0)))
    (pyInv ((n &&& 0x01 : Nat) : Int))) (pyInv ((n &&& irq_wait : Nat) : Int))))

/-- The `while True` polling loop (source lines 239-244).  The fuel
argument is the Python counter `i` before the iteration; the result is
`(i_after_break, last_n, state)`.  The fuel-0 branch is unreachable from
the actual entry value 2000, because `cardWriteBreak 0 n w = true`. -/
def pollLoop (irq_wait : Nat) : Nat → RState → Nat × Nat × RState
  | 0, s => (0, 0, s)
  | i + 1, s =>
    let r := dev_read addr_ComIrqReq s
    if cardWriteBreak i r.1 irq_wait then (i, r.1, r.2)
    else pollLoop irq_wait i r.2

/-- Interrupt-enable mask selection (source lines 214, 219-224; two
separate `if` statements, not `elif`). -/
def irqOf (command : Nat) : Nat :=
  let irq := 0x00
  let irq := if command = mode_auth then 0x12 else irq
  if command = mode_transrec then 0x77 else irq

/-- Wait-for bit selection (source lines 215, 219-224). -/
def waitIrqOf (command : Nat) : Nat :=
  let irq_wait := 0x00
  let irq_wait := if command = mode_auth then 0x10 else irq_wait
  if command = mode_transrec then 0x30 else irq_wait

/-- The pre-loop phase of `card_write` (source lines 226-237): enable
interrupts, clear the pending-irq bit, flush the FIFO, idle the command
register, load the payload, issue the command, and for transceive set the
start-send bit. -/
def cardWriteSetup (command : Nat) (data : List Nat) (s : RState) : RState :=
  let s := dev_write addr_ComIEnReg (irqOf command ||| 0x80) s
  let s := clear_bitmask addr_ComIrqReq 0x80 s
  let s := set_bitmask addr_FIFOLevelReg 0x80 s
  let s := dev_write addr_CommandReg mode_idle s
  let s := data.foldl (fun t b => dev_write addr_FIFODataReg b t) s
  let s := dev_write addr_CommandReg command s
  if command = mode_transrec then set_bitmask addr_BitFramingReg 0x80 s else s

/-- The FIFO drain loop of `card_write` (source lines 270-271). -/
def drainFifo : Nat → RState → List Nat × RState
  | 0, s => ([], s)
  | k + 1, s =>
    let r := dev_read addr_FIFODataReg s
    let rest := drainFifo k r.2
    (r.1 :: rest.1, rest.2)

/-- `card_write` (source lines 210-276).  Returns
`((error, back_data, back_length), state)`.  Note that when the loop
exhausts its budget (`i == 0`) the `if i != 0` block is skipped and the
initial `error = False` is returned unchanged. -/
def card_write (command : Nat) (data : List Nat) (s : RState) :
    (Bool × List Nat × Int) × RState :=
  let p := pollLoop (waitIrqOf command) 2000 (cardWriteSetup command data s)
  let i := p.1
  let n := p.2.1
  let s := clear_bitmask addr_BitFramingReg 0x80 p.2.2
  if i ≠ 0 then
    let r := dev_read addr_ErrorReg s
    if r.1 &&& 0x1B = 0 then
      let error := false
      let error := if n &&& irqOf command &&& 0x01 ≠ 0 then true else error
      if command = mode_transrec then
        let rf := dev_read addr_FIFOLevelReg r.2
        let rc := dev_read addr_ControlReg rf.2
        let last_bits := rc.1 &&& 0x07
        let back_length : Int :=
          if last_bits ≠ 0 then ((rf.1 : Int) - 1) * 8 + (last_bits : Int)
          else (rf.1 : Int) * 8
        let nf := if rf.1 = 0 then 1 else rf.1
        let nf := if nf > fifo_length then fifo_length else nf
        let d := drainFifo nf rc.2
        ((error, d.1, back_length), d.2)
      else ((error, [], 0), r.2)
    else ((true, [], 0), r.2)
  else ((false, [], 0), s)

/-! ### CRC coprocessor driver `calculate_crc` (source lines 387-406) -/

/-- The pre-loop phase of `calculate_crc` (source lines 388-393). -/
def crcPre (data : List Nat) (s : RState) : RState :=
  let s := clear_bitmask addr_DivIrqReg 0x04 s
  let s := set_bitmask addr_FIFOLevelReg 0x80 s
  let s := data.foldl (fun t b => dev_write addr_FIFODataReg b t) s
  dev_write addr_CommandReg mode_crc s

/-- The CRC polling loop (source lines 395-400).  Here the source uses
genuine boolean `not`/`and`, so the break condition after `i -= 1` is
simply `i == 0 or (n & 0x04) != 0`.  Fuel is the counter before the
iteration; the fuel-0 branch is unreachable from the entry value 255. -/
def crcLoop : Nat → RState → Nat × RState
  | 0, s => (0, s)
  | i + 1, s =>
    let r := dev_read addr_DivIrqReg s
    if i = 0 ∨ r.1 &&& 0x04 ≠ 0 then (r.1, r.2)
    else crcLoop i r.2

/-- `calculate_crc` (source lines 387-406): after the loop — whether or
not the done bit was seen — read result register 0x22 then 0x21 and
return the two bytes in that order. -/
def calculate_crc (data : List Nat) (s : RState) : List Nat × RState :=
  let s := crcPre data s
  let s := (crcLoop 255 s).2
  let r2 := dev_read addr_CRCResultReg22 s
  let r1 := dev_read addr_CRCResultReg21 r2.2
  ([r2.1, r1.1], r1.2)

/-! ### Protocol procedures (source lines 278-524) -/

/-- `request` (source lines 317-331): 7-bit framing, one transceive of the
request byte; success requires error-free completion with exactly 0x10
response bits. -/
def request (req_mode : Nat) (s : RState) : (Bool × Option Int) × RState :=
  let s := dev_write addr_BitFramingReg 0x07 s
  let r := card_write mode_transrec [req_mode] s
  if r.1.1 = true ∨ r.1.2.2 ≠ 0x10 then ((true, none), r.2)
  else ((false, some r.1.2.2), r.2)

/-- The anti-collision XOR checksum accumulator (source lines 350-351):
`for i in range(4): serial_number_check ^= back_data[i]`. -/
def xorCheck (bd : List Nat) : Nat :=
  (List.range 4).foldl (fun a i => a ^^^ bd.getD i 0) 0

/-- Common body of `anticoll` (source lines 333-358) and `anticoll2`
(source lines 360-385); the two methods are verbatim copies differing
only in the select code placed in the outgoing frame.  Full-byte framing,
one transceive of `[code, 0x20]`; on transport success require exactly 5
response bytes whose 5th is the XOR of the first 4. -/
def anticoll_with (code : Nat) (s : RState) : (Bool × List Nat) × RState :=
  let s := dev_write addr_BitFramingReg 0x00 s
  let r := card_write mode_transrec [code, 0x20] s
  let error := r.1.1
  let back_data := r.1.2.1
  if error = false then
    if back_data.length = 5 then
      if xorCheck back_data ≠ back_data.getD 4 0 then ((true, back_data), r.2)
      else ((false, back_data), r.2)
    else ((true, back_data), r.2)
  else ((error, back_data), r.2)

/-- `anticoll` (source lines 333-358), select code 0x93. -/
def anticoll (s : RState) : (Bool × List Nat) × RState :=
  anticoll_with act_anticl s

/-- `anticoll2` (source lines 360-385), select code 0x95. -/
def anticoll2 (s : RState) : (Bool × List Nat) × RState :=
  anticoll_with act_anticl2 s

/-- `select_tag` (source lines 408-432): CRC over `[0x93, 0x70, uid[0..4]]`,
appended, one transceive; success is error-free completion with exactly
0x18 response bits.  `calculate_crc` always returns two bytes, so `getD`
is the total rendering of the Python `crc[0]`/`crc[1]` indexing. -/
def select_tag (uid : List Nat) (s : RState) : Bool × RState :=
  let buf := [act_select, 0x70] ++ (List.range 5).map (fun i => uid.getD i 0)
  let c := calculate_crc buf s
  let buf := buf ++ [c.1.getD 0 0, c.1.getD 1 0]
  let r := card_write mode_transrec buf c.2
  if r.1.1 = false ∧ r.1.2.2 = 0x18 then (false, r.2) else (true, r.2)

/-- The authenticate payload (source lines 442-450):
`[auth_mode, block_address] + key + uid[0..3]`. -/
def authBuf (auth_mode block_address : Nat) (key uid : List Nat) : List Nat :=
  [auth_mode, block_address] ++ key ++ (List.range 4).map (fun i => uid.getD i 0)

/-- `card_auth` (source lines 434-459): run the authenticate command, then
require bit 0x08 of the status register (line 453: `if not (... & 0x08)
!= 0: error = True`); on overall success set `authed`. -/
def card_auth (auth_mode block_address : Nat) (key uid : List Nat) (s : RState) :
    Bool × RState :=
  let r := card_write mode_auth (authBuf auth_mode block_address key uid) s
  let st := dev_read addr_Status2Reg r.2
  let error := r.1.1
  let error := if ¬ (st.1 &&& 0x08 ≠ 0) then true else error
  (error, if error = false then { st.2 with authed := true } else st.2)

/-- `stop_crypto` (source lines 461-464). -/
def stop_crypto (s : RState) : RState :=
  let s := clear_bitmask addr_Status2Reg 0x08 s
  { s with authed := false }

/-- `halt` (source lines 466-477): the CRC of `[0x50, 0]` is computed (for
its device side effects) but never appended; the transceive result is
ignored; `authed` is cleared. -/
def halt (s : RState) : RState :=
  let buf := [act_end, 0]
  let c := calculate_crc buf s
  let s := clear_bitmask addr_Status2Reg 0x80 c.2
  let r := card_write mode_transrec buf s
  let s := clear_bitmask addr_Status2Reg 0x08 r.2
  { s with authed := false }

/-- Big-endian `int.from_bytes` (source lines 299 and 315). -/
def fromBytesBE (bs : List Nat) : Nat :=
  bs.foldl (fun a b => a * 256 + b) 0

/-- `read_id` (source lines 278-315): request, first anti-collision round;
a first byte other than the cascade tag 0x88 returns `uid[0:4]` directly,
else the tag is selected with the partial UID, a second round runs, and
the final UID is `uid[1:-1] + uid2[:-1]`.  `as_number` selects the
big-endian integer rendering (`Sum.inr`) over the byte list (`Sum.inl`);
`none` models Python's `None`. -/
def read_id (as_number : Bool) (s : RState) : Option (List Nat ⊕ Nat) × RState :=
  let r1 := request 0x26 s
  if r1.1.1 then (none, r1.2) else
  let r2 := anticoll r1.2
  if r2.1.1 then (none, r2.2) else
  let uid := r2.1.2
  if uid.getD 0 0 ≠ 0x88 then
    ((if as_number then some (Sum.inr (fromBytesBE (uid.take 4)))
      else some (Sum.inl (uid.take 4))), r2.2)
  else
  let r3 := select_tag uid r2.2
  if r3.1 then (none, r3.2) else
  let r4 := anticoll2 r3.2
  if r4.1.1 then (none, r4.2) else
  let s := disable_interrupts r4.2
  let real_uid := (uid.drop 1).dropLast ++ r4.1.2.dropLast
  ((if as_number then some (Sum.inr (fromBytesBE real_uid))
    else some (Sum.inl real_uid)), s)

/-- First phase of `write` (source lines 502-508): CRC over
`[0xA0, block]`, append, transceive. -/
def writePhase1 (block_address : Nat) (s : RState) : (Bool × List Nat × Int) × RState :=
  let buf := [act_write, block_address]
  let c := calculate_crc buf s
  let buf := buf ++ [c.1.getD 0 0, c.1.getD 1 0]
  card_write mode_transrec buf c.2

/-- Second phase of `write` (source lines 513-520): copy the 16 data
bytes (`data[i]` for `i in range(16)`), CRC, append, transceive. -/
def writePhase2 (data : List Nat) (s : RState) : (Bool × List Nat × Int) × RState :=
  let buf_w := (List.range 16).map (fun i => data.getD i 0)
  let c := calculate_crc buf_w s
  let buf_w := buf_w ++ [c.1.getD 0 0, c.1.getD 1 0]
  card_write mode_transrec buf_w c.2

/-- The ACK test applied after each phase of `write` (source lines 509 and
521): `not(back_length == 4) or not((back_data[0] & 0x0F) == 0x0A)`.
Python's short-circuit `or` only reaches `back_data[0]` when the bit
length is 4, which (for `card_write` results) guarantees a non-empty
response, so `getD 0 0` is a total rendering of the indexing. -/
def ackFail (r : Bool × List Nat × Int) : Bool :=
  !(r.2.2 == 4) || !((r.2.1.getD 0 0) &&& 0x0F == 0x0A)

/-- `write` (source lines 497-524): two phases, the second only runs when
the first neither erred nor failed its ACK check. -/
def write (block_address : Nat) (data : List Nat) (s : RState) : Bool × RState :=
  let r1 := writePhase1 block_address s
  let error := r1.1.1
  let error := if ackFail r1.1 then true else error
  if error then (error, r1.2)
  else
    let r2 := writePhase2 data r1.2
    let error2 := r2.1.1
    let error2 := if ackFail r2.1 then true else error2
    (error2, r2.2)

/-! ### Concrete device oracles used by witnesses and counterexamples

Each is a per-transaction read-back trace; entries consumed by register
writes are irrelevant (left 0).  The positions carrying meaning are noted
in the doc comments. -/

/-- A 4-byte-UID `read_id` run: request completes (poll reply 0x30 at
transfer 11, FIFO level 2 at 15 giving 16 response bits), first
anti-collision completes (poll 0x30 at 31, FIFO 5 at 35, bytes
`[1,2,3,4,4]` with a valid XOR checksum at 37-41). -/
def oracleC8 : List Nat :=
  [0, 0, 0, 0, 0, 0, 0, 0, 0, 0, 0, 48, 0, 0, 0, 2, 0, 0, 0, 0, 0, 0,
   0, 0, 0, 0, 0, 0, 0, 0, 0, 48, 0, 0, 0, 5, 0, 1, 2, 3, 4, 4]

/-- A 7-byte-UID `read_id` run: request completes; stage-1 anti-collision
answers `[0x88,1,2,3,0x88]` (cascade tag, checksum valid); the CRC done
bit for `select_tag` arrives at 54; `select_tag`'s transceive returns 3
bytes = 24 bits (FIFO 3 at 79); stage-2 anti-collision answers
`[4,5,6,7,0]` (checksum valid) at 102-106. -/
def oracleC3 : List Nat :=
  [0, 0, 0, 0, 0, 0, 0, 0, 0, 0, 0, 48, 0, 0, 0, 2, 0, 0, 0, 0, 0, 0,
   0, 0, 0, 0, 0, 0, 0, 0, 0, 48, 0, 0, 0, 5, 0, 136, 1, 2, 3, 136, 0,
   0, 0, 0, 0, 0, 0, 0, 0, 0, 0, 0, 4, 0, 0, 0, 0, 0, 0, 0, 0, 0, 0,
   0, 0, 0, 0, 0, 0, 0, 0, 0, 0, 48, 0, 0, 0, 3, 0, 0, 0, 0, 0, 0, 0,
   0, 0, 0, 0, 0, 0, 0, 0, 0, 48, 0, 0, 0, 5, 0, 4, 5, 6, 7, 0, 0, 0,
   0, 0]

/-- A bare `anticoll` run that completes with the valid 5-byte response
`[1,2,3,4,4]` (poll reply 0x30 at transfer 12, FIFO level 5 at 16). -/
def oracleC5 : List Nat :=
  [0, 0, 0, 0, 0, 0, 0, 0, 0, 0, 0, 0, 48, 0, 0, 0, 5, 0, 1, 2, 3, 4,
   4]

/-- A successful `card_auth` run: the wait-for bit 0x10 arrives on the
first poll (transfer 19), the error register is clean, and the status
register reports the crypto-active bit 0x08 (transfer 23). -/
def oracleC7 : List Nat :=
  [0, 0, 0, 0, 0, 0, 0, 0, 0, 0, 0, 0, 0, 0, 0, 0, 0, 0, 0, 16, 0, 0,
   0, 8]

/-- A transceive that completes cleanly with FIFO level 0 but a nonzero
bit count in the control register (3 at transfer 15), so the computed
response bit length is `3 - 8 = -5`; the forced single FIFO drain returns
0x99. -/
def oracleC10 : List Nat :=
  [0, 0, 0, 0, 0, 0, 0, 0, 0, 0, 48, 0, 0, 0, 0, 3, 153]

/-- A transport whose every reply is 0x34: the CRC loop and the command
poll both break on their first iteration, but the error register test
`0x34 & 0x1B = 0x10` fails, so `write`'s first phase yields an error with
no response bytes and its ACK check fails. -/
def oracleC4 : List Nat := List.replicate 60 0x34

/-! ### Helper lemmas -/

/-- The encoding used in `clear_bitmask` is the bitwise set difference:
stripping the common bits equals Python's `current & (~mask)`. -/
theorem xor_land_eq_ldiff (a m : Nat) : a ^^^ (a &&& m) = Nat.ldiff a m := by
  apply Nat.eq_of_testBit_eq
  intro i
  rw [Nat.testBit_xor, Nat.testBit_land, Nat.testBit_ldiff]
  cases a.testBit i <;> cases m.testBit i <;> rfl

/-- What line 243 actually does: the loop breaks exactly when the counter
has run out or the wait-for bit is observed; the timer bit 0x01 on its own
never breaks the loop, because `~(n & 0x01)` is a nonzero int (hence
truthy) for every byte `n`. -/
theorem cardWriteBreak_eq (i n irq_wait : Nat) :
    cardWriteBreak i n irq_wait =
      (decide (i = 0) || decide (n &&& irq_wait ≠ 0)) := by
  by_cases hi : i = 0
  · subst hi
    simp [cardWriteBreak, pyTruthy, pyInv, pyAnd, pyBool]
  · have htwo : ¬ (-(((n &&& 0x01 : Nat) : Int)) - 1 = 0) := by
      have : ((n &&& 0x01 : Nat) : Int) ≥ 0 := Int.natCast_nonneg _
      omega
    rcases Nat.eq_zero_or_pos (n &&& irq_wait) with hw | hw
    · simp [cardWriteBreak, pyTruthy, pyInv, pyAnd, pyBool, hi, htwo, hw]
      split <;> omega
    · have hw' : ((n &&& irq_wait : Nat) : Int) ≠ 0 := by
        exact_mod_cast Nat.pos_iff_ne_zero.mp hw
      have hw'' : n &&& irq_wait ≠ 0 := Nat.pos_iff_ne_zero.mp hw
      simp [cardWriteBreak, pyTruthy, pyInv, pyAnd, pyBool, hi, htwo, hw'']
      split <;> omega

/-- Each loop iteration sends exactly one frame, so the loop transmits at
most `fuel` frames. -/
theorem pollLoop_log_le (irq_wait : Nat) :
    ∀ (fuel : Nat) (s : RState),
      (pollLoop irq_wait fuel s).2.2.log.length ≤ s.log.length + fuel := by
  intro fuel
  induction fuel with
  | zero => intro s; simp [pollLoop]
  | succ i ih =>
    intro s
    simp only [pollLoop]
    split
    · simp only [dev_read, spi_transfer, List.length_cons]
      omega
    · have h := ih (dev_read addr_ComIrqReq s).2
      simp only [dev_read, spi_transfer, List.length_cons] at h ⊢
      omega

/-- The CRC polling loop likewise sends one frame per iteration. -/
theorem crcLoop_log_le :
    ∀ (fuel : Nat) (s : RState),
      (crcLoop fuel s).2.log.length ≤ s.log.length + fuel := by
  intro fuel
  induction fuel with
  | zero => intro s; simp [crcLoop]
  | succ i ih =>
    intro s
    simp only [crcLoop]
    split
    · simp only [dev_read, spi_transfer, List.length_cons]
      omega
    · have h := ih (dev_read addr_DivIrqReg s).2
      simp only [dev_read, spi_transfer, List.length_cons] at h ⊢
      omega

/-! ### Claims C1 and C2: the polling loop -/

/-- C1 counterexample: with a transport that never sets any status bit,
the loop exhausts its 2000-iteration budget (final counter 0), yet
`card_write` returns `(False, [], 0)` — the error flag is `False`, not
`True` as the claim states, because the `if i != 0` block (line 248) is
skipped and the initial `error = False` (line 213) is returned. -/
theorem card_write_exhaustion_counterexample :
    (pollLoop 0x30 2000 (cardWriteSetup mode_transrec [0x26] (mkState []))).1 = 0 ∧
    (card_write mode_transrec [0x26] (mkState [])).1 = (false, [], 0) := by
  constructor
  · decide
  · decide

/-- C1 amended: when the polling loop exhausts its budget without
observing completion, `card_write` returns the error flag `False` (not
`True`) together with an empty response and bit length 0. -/
theorem card_write_exhaustion_returns_no_error (command : Nat) (data : List Nat)
    (s : RState)
    (h : (pollLoop (waitIrqOf command) 2000 (cardWriteSetup command data s)).1 = 0) :
    (card_write command data s).1 = (false, [], 0) := by
  simp [card_write, h]

/-- C1 witness: the amended fact at the empty-oracle transport. -/
theorem card_write_exhaustion_returns_no_error_witness :
    (card_write mode_transrec [0x26] (mkState [])).1 = (false, [], 0) :=
  card_write_exhaustion_returns_no_error mode_transrec [0x26] (mkState []) (by decide)

/-- C2 counterexample: a polled byte with only the timer-expiry bit 0x01
set does not break the loop (the claim says it must): with the transceive
wait mask 0x30 and 1999 iterations remaining, the break condition is
`false`, and a transport answering 0x01 on every poll drives the loop to
full exhaustion. -/
theorem poll_timer_bit_counterexample :
    cardWriteBreak 1999 0x01 0x30 = false ∧
    (pollLoop 0x30 2000 (mkState (List.replicate 2000 1))).1 = 0 := by
  constructor
  · decide
  · decide

/-- C2 amended: the loop's break condition holds exactly when the counter
has run out or the command-specific wait-for bit is set in the polled
byte — the timer-expiry bit 0x01 plays no role (and for commands with
wait mask 0, only the budget ends the loop, since `n &&& 0 = 0`);
moreover the loop polls at most 2000 times. -/
theorem poll_exit_condition :
    (∀ i n w, cardWriteBreak i n w = (decide (i = 0) || decide (n &&& w ≠ 0))) ∧
    (∀ w s, (pollLoop w 2000 s).2.2.log.length ≤ s.log.length + 2000) :=
  ⟨cardWriteBreak_eq, fun w s => pollLoop_log_le w 2000 s⟩

/-! ### Claim C9: the CRC engine -/

/-- C9: for every input and transport, `calculate_crc` reads the two CRC
result registers unconditionally after the loop — register 0x22 (low
byte) first, then 0x21 (high byte) — returning them in exactly that
order, and the loop polls the done flag at most 255 times. -/
theorem calculate_crc_order_and_budget (data : List Nat) (s : RState) :
    (calculate_crc data s).1 =
      [(dev_read addr_CRCResultReg22 (crcLoop 255 (crcPre data s)).2).1,
       (dev_read addr_CRCResultReg21
         (dev_read addr_CRCResultReg22 (crcLoop 255 (crcPre data s)).2).2).1] ∧
    (crcLoop 255 (crcPre data s)).2.log.length ≤ (crcPre data s).log.length + 255 :=
  ⟨rfl, crcLoop_log_le 255 _⟩

/-! ### Claim C5: the anti-collision checksum -/

/-- Shared shape of the C5 property over the common body of the two
anti-collision methods. -/
theorem anticoll_with_spec (code : Nat) (s : RState) (bd : List Nat) (bl : Int)
    (s1 : RState)
    (h : card_write mode_transrec [code, 0x20]
      (dev_write addr_BitFramingReg 0x00 s) = ((false, bd, bl), s1)) :
    (bd.length ≠ 5 → (anticoll_with code s).1.1 = true) ∧
    (bd.length = 5 →
      ((anticoll_with code s).1.1 = true ↔ xorCheck bd ≠ bd.getD 4 0)) := by
  constructor
  · intro hlen
    simp [anticoll_with, h, hlen]
  · intro hlen
    by_cases hx : xorCheck bd ≠ bd.getD 4 0
    · simp_all [anticoll_with]
    · simp_all [anticoll_with]

/-- C5: when the underlying transceive reports no error, `anticoll` (and
likewise `anticoll2`) errors whenever the response is not exactly 5
bytes, and for a 5-byte response errors exactly when the 5th byte differs
from the XOR of the first four. -/
theorem anticoll_checksum_spec (s t : RState) :
    (∀ bd bl s1, card_write mode_transrec [act_anticl, 0x20]
        (dev_write addr_BitFramingReg 0x00 s) = ((false, bd, bl), s1) →
      (bd.length ≠ 5 → (anticoll s).1.1 = true) ∧
      (bd.length = 5 → ((anticoll s).1.1 = true ↔ xorCheck bd ≠ bd.getD 4 0))) ∧
    (∀ bd bl s1, card_write mode_transrec [act_anticl2, 0x20]
        (dev_write addr_BitFramingReg 0x00 t) = ((false, bd, bl), s1) →
      (bd.length ≠ 5 → (anticoll2 t).1.1 = true) ∧
      (bd.length = 5 → ((anticoll2 t).1.1 = true ↔ xorCheck bd ≠ bd.getD 4 0))) :=
  ⟨fun bd bl s1 h => anticoll_with_spec act_anticl s bd bl s1 h,
   fun bd bl s1 h => anticoll_with_spec act_anticl2 t bd bl s1 h⟩

/-- C5 witness: the valid 5-byte response `[1,2,3,4,4]` (checksum 4)
passes the check, so `anticoll` reports no error. -/
theorem anticoll_checksum_spec_witness :
    (anticoll (mkState oracleC5)).1.1 = false := by
  have h := (anticoll_checksum_spec (mkState oracleC5) (mkState oracleC5)).1
    [1, 2, 3, 4, 4] 40
    (card_write mode_transrec [act_anticl, 0x20]
      (dev_write addr_BitFramingReg 0x00 (mkState oracleC5))).2 (by decide)
  have h2 := h.2 (by decide)
  have hx : ¬ (xorCheck [1, 2, 3, 4, 4] ≠ [1, 2, 3, 4, 4].getD 4 0) := by decide
  cases hb : (anticoll (mkState oracleC5)).1.1
  · rfl
  · exact absurd (h2.mp hb) hx

/-! ### Claim C7: authentication and the authed flag -/

/-- C7: `card_auth` returns no error only when bit 0x08 of the status
register byte (read right after the authenticate command) is set, and
then it sets `authed`; `stop_crypto` and `halt` always reset `authed`. -/
theorem card_auth_authed_spec (m b : Nat) (key uid : List Nat) (s : RState)
    (h : (card_auth m b key uid s).1 = false) :
    (dev_read addr_Status2Reg
      (card_write mode_auth (authBuf m b key uid) s).2).1 &&& 0x08 ≠ 0 ∧
    (card_auth m b key uid s).2.authed = true ∧
    (∀ t, (stop_crypto t).authed = false) ∧
    (∀ t, (halt t).authed = false) := by
  have hst : (dev_read addr_Status2Reg
      (card_write mode_auth (authBuf m b key uid) s).2).1 &&& 0x08 ≠ 0 := by
    by_contra hst
    have hc : ¬ ((dev_read addr_Status2Reg
        (card_write mode_auth (authBuf m b key uid) s).2).1 &&& 0x08 ≠ 0) := by
      simpa using hst
    simp only [card_auth] at h
    rw [if_pos hc] at h
    exact absurd h (by decide)
  refine ⟨hst, ?_, fun t => rfl, fun t => rfl⟩
  simp only [card_auth] at h ⊢
  rw [if_neg (not_not_intro hst)] at h ⊢
  simp [h]

/-- C7 witness: a run whose status register reports 0x08 authenticates
and raises the `authed` flag. -/
theorem card_auth_authed_spec_witness :
    (card_auth 0x60 4 [1, 2, 3, 4, 5, 6] [9, 8, 7, 6] (mkState oracleC7)).2.authed
      = true :=
  (card_auth_authed_spec 0x60 4 [1, 2, 3, 4, 5, 6] [9, 8, 7, 6] (mkState oracleC7)
    (by decide)).2.1

/-! ### Claims C8 and C3: UID assembly in read_id -/

/-- C8: when request and the first anti-collision round succeed and the
first response byte is not the cascade tag 0x88, `read_id` returns the
first 4 response bytes (big-endian integer when `as_number`), and the
final state is exactly the post-anti-collision state: no `select_tag`
and no second anti-collision round are performed. -/
theorem read_id_4byte_spec (an : Bool) (s s1 s2 : RState) (tt : Option Int)
    (uid : List Nat)
    (h1 : request 0x26 s = ((false, tt), s1))
    (h2 : anticoll s1 = ((false, uid), s2))
    (h3 : uid.getD 0 0 ≠ 0x88) :
    read_id an s = ((if an then some (Sum.inr (fromBytesBE (uid.take 4)))
      else some (Sum.inl (uid.take 4))), s2) := by
  have h3p : uid[0]?.getD 0 ≠ 0x88 := by simpa [List.getD] using h3
  simp [read_id, h1, h2, h3p]

/-- C8 witness: a 4-byte-UID run returning `[1,2,3,4]` with the state
frozen at the end of the first anti-collision round. -/
theorem read_id_4byte_spec_witness :
    read_id false (mkState oracleC8) =
      (some (Sum.inl [1, 2, 3, 4]),
       (anticoll (request 0x26 (mkState oracleC8)).2).2) := by
  have h := read_id_4byte_spec false (mkState oracleC8)
    (request 0x26 (mkState oracleC8)).2
    (anticoll (request 0x26 (mkState oracleC8)).2).2
    (some 16) [1, 2, 3, 4, 4]
    (by decide) (by decide) (by decide)
  simpa using h

/-- C3 counterexample: in a complete 7-byte-UID run whose stage responses
are `[0x88,1,2,3,0x88]` and `[4,5,6,7,0]`, `read_id` returns the 7 bytes
`[1,2,3,4,5,6,7]` = stage1[1:4] ++ stage2[0:4], whereas the claim's
formula stage1[1:4] ++ stage2[0:3] gives the 6 bytes `[1,2,3,4,5,6]`. -/
theorem read_id_7byte_counterexample :
    (anticoll (request 0x26 (mkState oracleC3)).2).1 = (false, [0x88, 1, 2, 3, 0x88]) ∧
    (anticoll2 (select_tag [0x88, 1, 2, 3, 0x88]
      (anticoll (request 0x26 (mkState oracleC3)).2).2).2).1 = (false, [4, 5, 6, 7, 0]) ∧
    (read_id false (mkState oracleC3)).1 = some (Sum.inl [1, 2, 3, 4, 5, 6, 7]) ∧
    ([0x88, 1, 2, 3, 0x88].drop 1).take 3 ++ [4, 5, 6, 7, 0].take 3 ≠
      [1, 2, 3, 4, 5, 6, 7] := by
  refine ⟨by decide, by decide, by decide, by decide⟩

/-- C3 amended: in a successful cascade run, `read_id` issues exactly one
`select_tag` and one second-stage anti-collision call (the final state is
`disable_interrupts` of the post-stage-2 state and nothing else), and the
returned UID is `uid[1:-1] ++ uid2[:-1]` — stage-1 bytes 1..3 followed by
stage-2 bytes 0..3 (7 bytes), stripping the cascade tag and each stage's
trailing checksum byte. -/
theorem read_id_7byte_spec (an : Bool) (s s1 s2 s3 s4 : RState) (tt : Option Int)
    (uid uid2 : List Nat)
    (h1 : request 0x26 s = ((false, tt), s1))
    (h2 : anticoll s1 = ((false, uid), s2))
    (h3 : uid.getD 0 0 = 0x88)
    (h4 : select_tag uid s2 = (false, s3))
    (h5 : anticoll2 s3 = ((false, uid2), s4)) :
    read_id an s =
      ((if an then some (Sum.inr (fromBytesBE ((uid.drop 1).dropLast ++ uid2.dropLast)))
        else some (Sum.inl ((uid.drop 1).dropLast ++ uid2.dropLast))),
       disable_interrupts s4) := by
  have h3p : uid[0]?.getD 0 = 0x88 := by simpa [List.getD] using h3
  simp [read_id, h1, h2, h3p, h4, h5]

/-- C3 witness: the amended formula on the concrete cascade run. -/
theorem read_id_7byte_spec_witness :
    read_id false (mkState oracleC3) =
      (some (Sum.inl [1, 2, 3, 4, 5, 6, 7]),
       disable_interrupts (anticoll2 (select_tag [0x88, 1, 2, 3, 0x88]
         (anticoll (request 0x26 (mkState oracleC3)).2).2).2).2) := by
  have h := read_id_7byte_spec false (mkState oracleC3)
    (request 0x26 (mkState oracleC3)).2
    (anticoll (request 0x26 (mkState oracleC3)).2).2
    (select_tag [0x88, 1, 2, 3, 0x88]
      (anticoll (request 0x26 (mkState oracleC3)).2).2).2
    (anticoll2 (select_tag [0x88, 1, 2, 3, 0x88]
      (anticoll (request 0x26 (mkState oracleC3)).2).2).2).2
    (some 16) [0x88, 1, 2, 3, 0x88] [4, 5, 6, 7, 0]
    (by decide) (by decide) (by decide) (by decide) (by decide)
  simpa using h

/-! ### Claim C4: the two write phases -/

/-- C4: if the first phase of `write` fails its ACK check (response not
exactly 4 bits with low nibble 0x0A), the data phase is never transmitted
(the final state is exactly the post-phase-1 state) and `write` returns
error `True`; and if the second phase fails its ACK check the whole
operation returns error `True` as well. -/
theorem write_two_phase_spec (block : Nat) (data : List Nat) (s : RState) :
    (ackFail (writePhase1 block s).1 = true →
      write block data s = (true, (writePhase1 block s).2)) ∧
    (ackFail (writePhase2 data (writePhase1 block s).2).1 = true →
      (write block data s).1 = true) := by
  constructor
  · intro h
    simp [write, h]
  · intro h
    simp only [write]
    by_cases hA : ackFail (writePhase1 block s).1 = true
    · simp [hA]
    · simp only [Bool.not_eq_true] at hA
      by_cases hB : (writePhase1 block s).1.1 = true
      · simp [hA, hB]
      · simp only [Bool.not_eq_true] at hB
        simp [hA, hB, h]

/-- C4 witness: with a transport answering 0x34 everywhere, phase 1
completes but the chip error mask test fails, its ACK check fails, and
`write` stops right there with error `True`. -/
theorem write_two_phase_spec_witness :
    write 1 (List.replicate 16 0xAB) (mkState oracleC4) =
      (true, (writePhase1 1 (mkState oracleC4)).2) :=
  (write_two_phase_spec 1 (List.replicate 16 0xAB) (mkState oracleC4)).1 (by decide)

/-! ### Claim C10: transceive with an empty FIFO -/

/-- C10 counterexample: a transceive that completes with the chip error
mask clear and FIFO level 0 drains one byte as the claim says, but when
the control register's low three bits are nonzero (here 3) the reported
bit length is `3 - 8 = -5`, not 0 as the claim states. -/
theorem card_write_fifo_zero_counterexample :
    (pollLoop 0x30 2000 (cardWriteSetup mode_transrec [0x26] (mkState oracleC10))).1 ≠ 0 ∧
    (dev_read addr_ErrorReg (clear_bitmask addr_BitFramingReg 0x80
      (pollLoop 0x30 2000 (cardWriteSetup mode_transrec [0x26]
        (mkState oracleC10))).2.2)).1 &&& 0x1B = 0 ∧
    (dev_read addr_FIFOLevelReg (dev_read addr_ErrorReg
      (clear_bitmask addr_BitFramingReg 0x80
      (pollLoop 0x30 2000 (cardWriteSetup mode_transrec [0x26]
        (mkState oracleC10))).2.2)).2).1 = 0 ∧
    (card_write mode_transrec [0x26] (mkState oracleC10)).1 = (false, [0x99], -5) := by
  refine ⟨by decide, by decide, by decide, by decide⟩

/-- C10 amended: when a transceive completes with the error mask clear
and FIFO level 0, `card_write` drains exactly one byte (a 1-element
response list); the reported bit length is 0 when the control register's
low three bits are 0, and `last_bits - 8` (negative) otherwise. -/
theorem card_write_fifo_zero_spec (data : List Nat) (s : RState)
    (hpoll : (pollLoop 0x30 2000 (cardWriteSetup mode_transrec data s)).1 ≠ 0)
    (herr : (dev_read addr_ErrorReg (clear_bitmask addr_BitFramingReg 0x80
      (pollLoop 0x30 2000 (cardWriteSetup mode_transrec data s)).2.2)).1 &&& 0x1B = 0)
    (hfifo : (dev_read addr_FIFOLevelReg (dev_read addr_ErrorReg
      (clear_bitmask addr_BitFramingReg 0x80
      (pollLoop 0x30 2000 (cardWriteSetup mode_transrec data s)).2.2)).2).1 = 0) :
    (card_write mode_transrec data s).1.2.1.length = 1 ∧
    (card_write mode_transrec data s).1.2.2 =
      (if (dev_read addr_ControlReg (dev_read addr_FIFOLevelReg
          (dev_read addr_ErrorReg (clear_bitmask addr_BitFramingReg 0x80
          (pollLoop 0x30 2000 (cardWriteSetup mode_transrec data s)).2.2)).2).2).1
          &&& 0x07 ≠ 0
       then (((dev_read addr_ControlReg (dev_read addr_FIFOLevelReg
          (dev_read addr_ErrorReg (clear_bitmask addr_BitFramingReg 0x80
          (pollLoop 0x30 2000 (cardWriteSetup mode_transrec data s)).2.2)).2).2).1
          &&& 0x07 : Nat) : Int) - 8
       else 0) := by
  have h30 : waitIrqOf mode_transrec = 0x30 := rfl
  simp only [card_write, h30]
  simp [hpoll, herr, hfifo, drainFifo]
  split <;> omega

/-- C10 witness: the amended fact at the concrete empty-FIFO run. -/
theorem card_write_fifo_zero_spec_witness :
    (card_write mode_transrec [0x26] (mkState oracleC10)).1.2.1.length = 1 :=
  (card_write_fifo_zero_spec [0x26] (mkState oracleC10)
    (by decide) (by decide) (by decide)).1

/-! ### Claim C6: antenna gain -/

/-- C6: in range 0..7 the gain is stored and exactly one frame
`[0x4C, gain<<4]` is transmitted; out of range the call rejects with
`ValueError` before any transfer, leaving the state untouched. -/
theorem set_antenna_gain_spec (gain : Int) (s : RState) :
    (0 ≤ gain → gain ≤ 7 →
      set_antenna_gain gain s =
        .ok { s with antenna_gain := gain,
                     oracle := s.oracle.tail,
                     log := [(addr_RFCfgReg <<< 1) &&& 0x7E, gain.toNat <<< 4] :: s.log }) ∧
    (¬ (0 ≤ gain ∧ gain ≤ 7) →
      set_antenna_gain gain s = .error "Antenna gain has to be in the range 0...7") := by
  constructor
  · intro h0 h7
    simp only [set_antenna_gain, if_pos (And.intro h0 h7), dev_write, spi_transfer]
  · intro h
    simp only [set_antenna_gain, if_neg h]

/-- C6 witness: `set_antenna_gain 3` writes payload `3<<4 = 48`;
`set_antenna_gain 8` and `set_antenna_gain (-1)` reject. -/
theorem set_antenna_gain_spec_witness :
    set_antenna_gain 3 (mkState []) =
      .ok { mkState [] with antenna_gain := 3, oracle := [], log := [[0x4C, 48]] } ∧
    set_antenna_gain 8 (mkState []) = .error "Antenna gain has to be in the range 0...7" ∧
    set_antenna_gain (-1) (mkState []) = .error "Antenna gain has to be in the range 0...7" := by
  refine ⟨?_, ?_, ?_⟩
  · have h := (set_antenna_gain_spec 3 (mkState [])).1 (by decide) (by decide)
    simpa using h
  · exact (set_antenna_gain_spec 8 (mkState [])).2 (by decide)
  · exact (set_antenna_gain_spec (-1) (mkState [])).2 (by decide)

end Pirc522
